import Mathlib

/-!
Verification development for the seafile-uploader relay (src/main.go).
The Go program mediates between browser clients and a Seafile REST API:
it checks/creates remote directories, relays multipart file uploads and
streams downloads. The network is abstracted: each remote call is given
its outcome (`TransportResult`), and a response body is carried both as
the raw text the code compares against and as its JSON parse result.
-/

namespace SeafileUploader

/-- Constant `UPLOADED_FILE_HASH_SIZE` from src/main.go: byte length of the
hash returned by a successful upload. -/
def UPLOADED_FILE_HASH_SIZE : Nat := 40

/-- Constant `REPO_ID_SIZE` from src/main.go. -/
def REPO_ID_SIZE : Nat := 36

/-- Constant `PATH_DOESNT_EXIST_MSG` from src/main.go: the sentinel error
message the remote service returns for a missing directory. -/
def PATH_DOESNT_EXIST_MSG : String := "Path does not exist"

/-- JSON values: the shape-level model of response bodies, standing for what
Go `json.Unmarshal` sees after parsing. Numbers are modelled as integers
(the program only reads integer fields). -/
inductive JValue where
  | null
  | bool (b : Bool)
  | num (n : Int)
  | str (s : String)
  | arr (elems : List JValue)
  | obj (fields : List (String × JValue))

/-- Field lookup in a JSON object. Go `encoding/json` keeps the last of
duplicate keys, hence `getLast?`. (Field-name matching is modelled as exact
match on the lower-case json tags used by the program.) -/
def jsonLookup (fields : List (String × JValue)) (key : String) : Option JValue :=
  ((fields.filter (fun kv => kv.1 == key)).getLast?).map (fun kv => kv.2)

/-- Decode a string-typed struct field the way `json.Unmarshal` does:
an absent field or a JSON null leaves the zero value "", a JSON string is
taken as is, and any other value is an unmarshal error (`none`). -/
def decodeStringField (fields : List (String × JValue)) (key : String) : Option String :=
  match jsonLookup fields key with
  | none => some ""
  | some JValue.null => some ""
  | some (JValue.str s) => some s
  | some _ => none

/-- Decode an integer-typed struct field (`mtime`, `size`): absent or null
gives 0, a number is taken as is, anything else is an unmarshal error. -/
def decodeIntField (fields : List (String × JValue)) (key : String) : Option Int :=
  match jsonLookup fields key with
  | none => some 0
  | some JValue.null => some 0
  | some (JValue.num n) => some n
  | some _ => none

/-- `FileSpec` from src/main.go (json tags id, mtime, type, name, size). -/
structure FileSpec where
  id : String
  mtime : Int
  type : String
  name : String
  size : Int
deriving DecidableEq

/-- `json.Unmarshal` of one array element into a `FileSpec`: null leaves the
zero-valued struct, an object decodes field-wise, anything else errors. -/
def decodeFileSpec (v : JValue) : Option FileSpec :=
  match v with
  | JValue.null => some ⟨"", 0, "", "", 0⟩
  | JValue.obj fields =>
    match decodeStringField fields "id", decodeIntField fields "mtime",
          decodeStringField fields "type", decodeStringField fields "name",
          decodeIntField fields "size" with
    | some i, some m, some t, some n, some s => some ⟨i, m, t, n, s⟩
    | _, _, _, _, _ => none
  | _ => none

/-- `json.Unmarshal` into `[]FileSpec`: a JSON array decodes element-wise,
JSON null leaves the nil slice, anything else errors. -/
def decodeFileSpecs (v : JValue) : Option (List FileSpec) :=
  match v with
  | JValue.null => some []
  | JValue.arr elems => elems.mapM decodeFileSpec
  | _ => none

/-- One entry of a `map[string]string` decode: value must be a string
(null gives the zero value). -/
def decodeStringEntry (kv : String × JValue) : Option (String × String) :=
  match kv.2 with
  | JValue.str s => some (kv.1, s)
  | JValue.null => some (kv.1, "")
  | _ => none

/-- `json.Unmarshal` into `map[string]string`. -/
def decodeStringMap (v : JValue) : Option (List (String × String)) :=
  match v with
  | JValue.null => some []
  | JValue.obj fields => fields.mapM decodeStringEntry
  | _ => none

/-- `json.Unmarshal` into `map[string]interfaceAny`. -/
def decodeJsonObj (v : JValue) : Option (List (String × JValue)) :=
  match v with
  | JValue.null => some []
  | JValue.obj fields => some fields
  | _ => none

/-- Go map read `m[key]` with the string zero value for a missing key
(later duplicate keys overwrite earlier ones). -/
def mapGet (m : List (String × String)) (key : String) : String :=
  match (m.filter (fun kv => kv.1 == key)).getLast? with
  | some kv => kv.2
  | none => ""

/-- A response body: the raw text the program compares against, together
with its JSON parse (`none` when the body is not valid JSON). -/
structure Body where
  raw : String
  json : Option JValue

/-- An HTTP response as the program observes it: status code, status text,
header lookup (Go `Header.Get`, "" for a missing header) and the body. -/
structure HttpResponse where
  StatusCode : Nat
  Status : String
  headerGet : String → String
  body : Body

/-- Outcome of one remote HTTP call: a transport-level error
(request construction, `client.Do`, or body read) or a response. -/
inductive TransportResult where
  | err (e : String)
  | resp (r : HttpResponse)

/-- `DoSeafileRequest` (src/main.go:91): issues the authenticated call and
returns the body bytes; it never inspects `resp.StatusCode`. -/
def DoSeafileRequest (t : TransportResult) : Except String Body :=
  match t with
  | TransportResult.err e => Except.error e
  | TransportResult.resp r => Except.ok r.body

/-- `json.Unmarshal` of a body against a destination shape, with placeholder
texts for the Go json package error messages (the program never branches on
those texts). -/
def unmarshal {α : Type} (decode : JValue → Option α) (b : Body) : Except String α :=
  match b.json with
  | none => Except.error "invalid JSON input"
  | some v =>
    match decode v with
    | none => Except.error "json: cannot unmarshal value"
    | some a => Except.ok a

/-- `DoSeafileRequestJSON` (src/main.go:116): raw request, then unmarshal. -/
def DoSeafileRequestJSON {α : Type} (decode : JValue → Option α) (t : TransportResult) :
    Except String α :=
  match DoSeafileRequest t with
  | Except.error e => Except.error e
  | Except.ok data => unmarshal decode data

/-- The file-name list built by the `ListDirectory` loop: names of the
entries whose type discriminator is exactly "file". -/
def listedFiles (specs : List FileSpec) : List String :=
  (specs.filter (fun e => e.type == "file")).map (fun e => e.name)

/-- `ListDirectory` (src/main.go:279): on a body that unmarshals as
`[]FileSpec`, return the names of the "file"-typed entries; otherwise fall
back to a `map[string]string` decode and surface its `error_msg` when
non-empty, else an "Unknown server response" error. -/
def ListDirectory (t : TransportResult) : Except String (List String) :=
  match DoSeafileRequest t with
  | Except.error e => Except.error e
  | Except.ok data =>
    match data.json.bind decodeFileSpecs with
    | some specs => Except.ok (listedFiles specs)
    | none =>
      match data.json.bind decodeStringMap with
      | some hash =>
        if mapGet hash "error_msg" != "" then Except.error (mapGet hash "error_msg")
        else Except.error ("Unknown server response: " ++ data.raw)
      | none => Except.error ("Unknown server response: " ++ data.raw)

/-- `IsDirectoryExist` (src/main.go:311), returning the Go triple
(err, files, exists): listing success means (nil, files, true); the exact
sentinel error means (nil, nil, false); any other error is propagated. -/
def IsDirectoryExist (t : TransportResult) : Option String × List String × Bool :=
  match ListDirectory t with
  | Except.ok files => (none, files, true)
  | Except.error e =>
    if e == PATH_DOESNT_EXIST_MSG then (none, [], false)
    else (some e, [], false)

/-- `CreateDirectory` (src/main.go:331): POST operation=mkdir. A raw body
equal to the literal text "success" in quotes is success; otherwise the body
must unmarshal as `map[string]string`, a non-empty `error_msg` becomes an
error, and (as in the code) any other decodable body yields no error. -/
def CreateDirectory (directory : String) (t : TransportResult) : Except String Unit :=
  match t with
  | TransportResult.err e => Except.error e
  | TransportResult.resp r =>
    if r.body.raw == "\x22success\x22" then Except.ok ()
    else
      match r.body.json.bind decodeStringMap with
      | none => Except.error "json: cannot unmarshal value"
      | some returnData =>
        if mapGet returnData "error_msg" != "" then
          Except.error ("Cannot create directory " ++ directory ++ " > " ++
            mapGet returnData "error_msg")
        else Except.ok ()

/-- The Go interface type assertion `.(bool)`: `none` stands for the runtime
panic on a missing or differently-typed value. -/
def assertBool (v : Option JValue) : Option Bool :=
  match v with
  | some (JValue.bool b) => some b
  | _ => none

/-- The Go interface type assertion `.(string)`. -/
def assertString (v : Option JValue) : Option String :=
  match v with
  | some (JValue.str s) => some s
  | _ => none

/-- `GetDefaultRepo` (src/main.go:212) as a transformer of the global
`default_repo`: the result is the new value of `default_repo` paired with
the returned error, and `none` models the type-assertion panics. Note the
order in the code: `default_repo` is assigned from `repo_id` before the
length-36 check. -/
def GetDefaultRepo (t : TransportResult) (default_repo : String) :
    Option (String × Except String Unit) :=
  match DoSeafileRequestJSON decodeJsonObj t with
  | Except.error e => some (default_repo, Except.error e)
  | Except.ok dat =>
    match assertBool (jsonLookup dat "exists") with
    | none => none
    | some ex =>
      if !ex then some (default_repo, Except.error "Repo doesn\x27t exists")
      else
        match assertString (jsonLookup dat "repo_id") with
        | none => none
        | some rid =>
          if rid.length != REPO_ID_SIZE then
            some (rid, Except.error ("Invalid default_repo: " ++ rid))
          else some (rid, Except.ok ())

/-- `UploadFile` (src/main.go:397). `copyResult` is the result of
`io.Copy(part, src)`: in the code it is assigned to `err` but the next
assignment `err = multipart_writer.Close()` overwrites it before any check,
so this parameter is (faithfully) unused. `closeResult` is the checked
result of `Close()`. After a transport-level success, the call succeeds
exactly when the raw body has length `UPLOADED_FILE_HASH_SIZE`; the
returned string is the hash used for the fire-and-forget callback
(the callback itself never affects the result and is not modelled). -/
def UploadFile (copyResult closeResult : Except String Unit) (t : TransportResult)
    (folder filename : String) : Except String String :=
  match closeResult with
  | Except.error e => Except.error e
  | Except.ok _ =>
    match t with
    | TransportResult.err e => Except.error e
    | TransportResult.resp r =>
      if r.body.raw.length != UPLOADED_FILE_HASH_SIZE then
        Except.error ("Cannot upload " ++ (folder ++ filename))
      else Except.ok r.body.raw

/-- One file part of the multipart form, with the outcomes of the per-file
effects in the upload loop (src/main.go:520): `files[i].Open()`, the body
copy, the multipart writer close, and the POST to the upload link. -/
structure UploadItem where
  filename : String
  openResult : Except String Unit
  copyResult : Except String Unit
  closeResult : Except String Unit
  httpOutcome : TransportResult

/-- The remote calls the upload handler can issue, in order. -/
inductive HandlerCall where
  | listDir
  | mkdir
  | upload (filename : String)
deriving DecidableEq

/-- What the handler writes back: `http.Error` with a message, or the
rendered success page with the uploaded-file count. -/
inductive HandlerResult where
  | errorResp (msg : String)
  | successPage (uploaded : Nat)
deriving DecidableEq

/-- `fetchValue` (src/main.go:471). -/
def fetchValue (values : List String) (defaultValue : String) : String :=
  match values with
  | [] => defaultValue
  | v :: _ => if v != "" then v else defaultValue

/-- The per-file loop of `uploadHandler` (src/main.go:522): skip a file whose
name matches one in `files_exist` (the inner loop over `files_exist` is the
`any` below); otherwise open it and call `UploadFile`; any error aborts the
whole loop. Returns the upload calls issued (in order) and either the first
error or the count of uploaded files. -/
def processBatch (dir : String) (files_exist : List String) :
    List UploadItem → List HandlerCall × Except String Nat
  | [] => ([], Except.ok 0)
  | it :: rest =>
    if files_exist.any (fun fe => it.filename == fe) then
      processBatch dir files_exist rest
    else
      match it.openResult with
      | Except.error e => ([], Except.error e)
      | Except.ok _ =>
        match UploadFile it.copyResult it.closeResult it.httpOutcome dir it.filename with
        | Except.error e => ([HandlerCall.upload it.filename], Except.error e)
        | Except.ok _ =>
          (HandlerCall.upload it.filename :: (processBatch dir files_exist rest).1,
           Except.map (fun n => n + 1) (processBatch dir files_exist rest).2)

/-- A file part whose open and upload both succeed. -/
def itemOk (dir : String) (it : UploadItem) : Bool :=
  (match it.openResult with
   | Except.ok _ => true
   | Except.error _ => false) &&
  (match UploadFile it.copyResult it.closeResult it.httpOutcome dir it.filename with
   | Except.ok _ => true
   | Except.error _ => false)

/-- One POST /upload request after a successful multipart parse: the form
value of "folder", and the outcomes of the remote calls the handler may
issue (directory listing, mkdir, and the per-file effects). -/
structure UploadRequest where
  folderValues : List String
  listOutcome : TransportResult
  createOutcome : TransportResult
  files : List UploadItem

/-- The handler response derived from the loop result. -/
def toResult (r : Except String Nat) : HandlerResult :=
  match r with
  | Except.error e => HandlerResult.errorResp e
  | Except.ok n => HandlerResult.successPage n

/-- The POST branch of `uploadHandler` (src/main.go:489): existence check on
the target folder, mkdir when absent (failure aborts), then the per-file
loop. Returns the remote calls issued, in order, and the response. -/
def uploadHandlerPost (req : UploadRequest) : List HandlerCall × HandlerResult :=
  match IsDirectoryExist req.listOutcome with
  | (some e, _, _) => ([HandlerCall.listDir], HandlerResult.errorResp e)
  | (none, files_exist, dir_exist) =>
    if dir_exist then
      (HandlerCall.listDir ::
        (processBatch (fetchValue req.folderValues "/test/") files_exist req.files).1,
       toResult (processBatch (fetchValue req.folderValues "/test/") files_exist req.files).2)
    else
      match CreateDirectory (fetchValue req.folderValues "/test/") req.createOutcome with
      | Except.error e => ([HandlerCall.listDir, HandlerCall.mkdir], HandlerResult.errorResp e)
      | Except.ok _ =>
        (HandlerCall.listDir :: HandlerCall.mkdir ::
          (processBatch (fetchValue req.folderValues "/test/") files_exist req.files).1,
         toResult (processBatch (fetchValue req.folderValues "/test/") files_exist req.files).2)

/-- `headers_to_forward` (src/main.go:588): request headers replayed onto
the upstream fetch. -/
def headers_to_forward : List String :=
  ["If-Modified-Since", "Accept", "Accept-Encoding", "Accept-Language",
   "Cache-Control", "Pragma"]

/-- The request-header forwarding loop of `downloadHandler`: for each
allow-listed name with a non-empty value in the client request, add it to
the upstream request. -/
def buildForwardedHeaders (reqHeaderGet : String → String) : List (String × String) :=
  headers_to_forward.filterMap (fun h =>
    if reqHeaderGet h != "" then some (h, reqHeaderGet h) else none)

/-- `headers_to_return` (src/main.go:610): upstream response headers copied
back onto the client response on a 200. -/
def headers_to_return : List String := ["Cache-Control", "Last-Modified"]

/-- The response-header copy loop of `downloadHandler` on a 200. -/
def buildReturnedHeaders (respHeaderGet : String → String) : List (String × String) :=
  headers_to_return.filterMap (fun h =>
    if respHeaderGet h != "" then some (h, respHeaderGet h) else none)

/-- All headers set on the client response for a 200 upstream response, in
the order the code sets them: the conditional keep-alive echo of the client
Connection header, the fixed permissive CORS header, then the copies of the
allow-listed upstream headers. -/
def downloadResponseHeaders200 (connHeader : String) (respHeaderGet : String → String) :
    List (String × String) :=
  (if connHeader == "keep-alive" then [("Connection", "keep-alive")] else []) ++
  ("Access-Control-Allow-Origin", "*") :: buildReturnedHeaders respHeaderGet

/-- What the download relay writes back once the upstream response is in
hand: a streamed body with headers, or `http.Error` with the upstream
status text and code. (The 1 MiB chunked copy is abstracted to the whole
body; the claims do not concern chunk boundaries.) -/
inductive DownloadRelayResult where
  | stream (headers : List (String × String)) (body : String)
  | errorResp (msg : String) (code : Nat)
deriving DecidableEq

/-- The status dispatch of `downloadHandler` (src/main.go:608): 200 streams
the body with the forwarded headers, every other status (304 included) is
passed through `http.Error` with the upstream status text and code, with no
body streamed. -/
def relayDownloadResponse (connHeader : String) (resp : HttpResponse) : DownloadRelayResult :=
  if resp.StatusCode == 200 then
    DownloadRelayResult.stream (downloadResponseHeaders200 connHeader resp.headerGet)
      resp.body.raw
  else
    DownloadRelayResult.errorResp resp.Status resp.StatusCode

/-! ## Theorems -/

/-- Claim C1: the directory existence check classifies every result of the
directory-listing operation three ways: a successful listing is reported as
exists (no error) with the file list passed through; a listing error whose
message is exactly the sentinel "Path does not exist" is reported as absent
with no error; any other listing error is propagated, never silently
treated as absent. -/
theorem isDirectoryExist_classifies (t : TransportResult) :
    (∀ fs, ListDirectory t = Except.ok fs → IsDirectoryExist t = (none, fs, true)) ∧
    (ListDirectory t = Except.error PATH_DOESNT_EXIST_MSG →
      IsDirectoryExist t = (none, [], false)) ∧
    (∀ e, ListDirectory t = Except.error e → e ≠ PATH_DOESNT_EXIST_MSG →
      IsDirectoryExist t = (some e, [], false)) := by
  refine ⟨fun fs h => ?_, fun h => ?_, fun e h hne => ?_⟩
  · simp [IsDirectoryExist, h]
  · simp [IsDirectoryExist, h]
  · simp [IsDirectoryExist, h, hne]

/-- A listing response carrying exactly the absent-path sentinel. -/
def tSentinel : TransportResult :=
  TransportResult.resp ⟨404, "404 NOT FOUND", fun _ => "",
    ⟨"\x7b\x22error_msg\x22: \x22Path does not exist\x22\x7d",
     some (JValue.obj [("error_msg", JValue.str "Path does not exist")])⟩⟩

/-- A listing response with one file entry and one directory entry. -/
def tListing : TransportResult :=
  TransportResult.resp ⟨200, "200 OK", fun _ => "",
    ⟨"[\x7b\x22type\x22: \x22file\x22, \x22name\x22: \x22a.txt\x22\x7d, \x7b\x22type\x22: \x22dir\x22, \x22name\x22: \x22docs\x22\x7d]",
     some (JValue.arr
       [JValue.obj [("type", JValue.str "file"), ("name", JValue.str "a.txt")],
        JValue.obj [("type", JValue.str "dir"), ("name", JValue.str "docs")]])⟩⟩

/-- Witness for C1 at three concrete listing outcomes: a successful listing,
the sentinel error, and a transport error "boom". -/
theorem isDirectoryExist_classifies_witness :
    IsDirectoryExist tListing = (none, ["a.txt"], true) ∧
    IsDirectoryExist tSentinel = (none, [], false) ∧
    IsDirectoryExist (TransportResult.err "boom") = (some "boom", [], false) :=
  ⟨(isDirectoryExist_classifies tListing).1 ["a.txt"] rfl,
   (isDirectoryExist_classifies tSentinel).2.1 rfl,
   (isDirectoryExist_classifies (TransportResult.err "boom")).2.2 "boom" rfl (by decide)⟩

/-- Claim C2: once the upload POST yields a response, success is decided
exactly by the length of the response body — success if and only if the
body has exactly 40 characters, and any other length is the "Cannot upload"
error regardless of the body content (and regardless of the outcome of the
earlier body copy, whose error the code drops). -/
theorem uploadFile_length_discriminates (copyResult : Except String Unit)
    (folder filename : String) (r : HttpResponse) :
    (UploadFile copyResult (Except.ok ()) (TransportResult.resp r) folder filename =
        Except.ok r.body.raw ↔ r.body.raw.length = UPLOADED_FILE_HASH_SIZE) ∧
    (r.body.raw.length ≠ UPLOADED_FILE_HASH_SIZE →
      UploadFile copyResult (Except.ok ()) (TransportResult.resp r) folder filename =
        Except.error ("Cannot upload " ++ (folder ++ filename))) := by
  constructor
  · constructor
    · intro h
      by_contra hlen
      simp [UploadFile, hlen] at h
    · intro hlen
      simp [UploadFile, hlen]
  · intro hlen
    simp [UploadFile, hlen]

/-- A 40-character hash, the success sentinel of the upload API. -/
def hash40 : String := "0123456789abcdef0123456789abcdef01234567"

/-- Witness for C2: a 40-character body succeeds, a 4-character body fails. -/
theorem uploadFile_length_discriminates_witness :
    UploadFile (Except.ok ()) (Except.ok ())
        (TransportResult.resp ⟨200, "200 OK", fun _ => "", ⟨hash40, none⟩⟩)
        "/docs/" "report.pdf" = Except.ok hash40 ∧
    UploadFile (Except.ok ()) (Except.ok ())
        (TransportResult.resp ⟨200, "200 OK", fun _ => "", ⟨"oops", none⟩⟩)
        "/docs/" "report.pdf" =
      Except.error ("Cannot upload " ++ ("/docs/" ++ "report.pdf")) :=
  ⟨(uploadFile_length_discriminates (Except.ok ()) "/docs/" "report.pdf"
      ⟨200, "200 OK", fun _ => "", ⟨hash40, none⟩⟩).1.mpr (by decide),
   (uploadFile_length_discriminates (Except.ok ()) "/docs/" "report.pdf"
      ⟨200, "200 OK", fun _ => "", ⟨"oops", none⟩⟩).2 (by decide)⟩

/-- Claim C5: the JSON read path treats a call as successful whenever the
transport succeeds and the body decodes, regardless of the HTTP status code:
the result depends only on the body (two responses with the same body and
any status codes or headers give the same result), and a decodable body
yields that decoded value. -/
theorem doSeafileRequestJSON_ignores_status {α : Type} (decode : JValue → Option α)
    (r r' : HttpResponse) :
    (r.body = r'.body →
      DoSeafileRequestJSON decode (TransportResult.resp r) =
        DoSeafileRequestJSON decode (TransportResult.resp r')) ∧
    (∀ v a, r.body.json = some v → decode v = some a →
      DoSeafileRequestJSON decode (TransportResult.resp r) = Except.ok a) := by
  constructor
  · intro h
    simp [DoSeafileRequestJSON, DoSeafileRequest, h]
  · intro v a hv ha
    simp [DoSeafileRequestJSON, DoSeafileRequest, unmarshal, hv, ha]

/-- Witness for C5: a 500 response and a 200 response with the same decodable
body give the same successful decode. -/
theorem doSeafileRequestJSON_ignores_status_witness :
    DoSeafileRequestJSON decodeStringMap
        (TransportResult.resp ⟨500, "500 ERROR", fun _ => "",
          ⟨"\x7b\x22k\x22: \x22v\x22\x7d", some (JValue.obj [("k", JValue.str "v")])⟩⟩) =
      DoSeafileRequestJSON decodeStringMap
        (TransportResult.resp ⟨200, "200 OK", fun _ => "",
          ⟨"\x7b\x22k\x22: \x22v\x22\x7d", some (JValue.obj [("k", JValue.str "v")])⟩⟩) ∧
    DoSeafileRequestJSON decodeStringMap
        (TransportResult.resp ⟨500, "500 ERROR", fun _ => "",
          ⟨"\x7b\x22k\x22: \x22v\x22\x7d", some (JValue.obj [("k", JValue.str "v")])⟩⟩) =
      Except.ok [("k", "v")] :=
  ⟨(doSeafileRequestJSON_ignores_status decodeStringMap
      ⟨500, "500 ERROR", fun _ => "",
        ⟨"\x7b\x22k\x22: \x22v\x22\x7d", some (JValue.obj [("k", JValue.str "v")])⟩⟩
      ⟨200, "200 OK", fun _ => "",
        ⟨"\x7b\x22k\x22: \x22v\x22\x7d", some (JValue.obj [("k", JValue.str "v")])⟩⟩).1 rfl,
   (doSeafileRequestJSON_ignores_status decodeStringMap
      ⟨500, "500 ERROR", fun _ => "",
        ⟨"\x7b\x22k\x22: \x22v\x22\x7d", some (JValue.obj [("k", JValue.str "v")])⟩⟩
      ⟨500, "500 ERROR", fun _ => "",
        ⟨"\x7b\x22k\x22: \x22v\x22\x7d", some (JValue.obj [("k", JValue.str "v")])⟩⟩).2
     (JValue.obj [("k", JValue.str "v")]) [("k", "v")] rfl rfl⟩

/-- Claim C9: for every upstream status other than 200 (304 included), the
download relay answers with the upstream status text and status code and
does not stream the upstream body. -/
theorem relayDownloadResponse_non200 (connHeader : String) (resp : HttpResponse)
    (hne : resp.StatusCode ≠ 200) :
    relayDownloadResponse connHeader resp =
      DownloadRelayResult.errorResp resp.Status resp.StatusCode ∧
    ∀ hs b, relayDownloadResponse connHeader resp ≠ DownloadRelayResult.stream hs b := by
  have h : relayDownloadResponse connHeader resp =
      DownloadRelayResult.errorResp resp.Status resp.StatusCode := by
    simp [relayDownloadResponse, hne]
  exact ⟨h, fun hs b hc => by simp [h] at hc⟩

/-- Witness for C9 at a 304 Not Modified upstream response. -/
theorem relayDownloadResponse_non200_witness :
    relayDownloadResponse "keep-alive"
        ⟨304, "304 Not Modified", fun _ => "", ⟨"cached body", none⟩⟩ =
      DownloadRelayResult.errorResp "304 Not Modified" 304 :=
  (relayDownloadResponse_non200 "keep-alive"
    ⟨304, "304 Not Modified", fun _ => "", ⟨"cached body", none⟩⟩ (by decide)).1

/-- Helper: a name in the skip list comes from a "file"-typed entry. -/
theorem mem_listedFiles {specs : List FileSpec} {n : String} (hn : n ∈ listedFiles specs) :
    ∃ e ∈ specs, e.type = "file" ∧ e.name = n := by
  simp only [listedFiles, List.mem_map] at hn
  obtain ⟨e, he, rfl⟩ := hn
  rw [List.mem_filter] at he
  exact ⟨e, he.1, by simpa using he.2, rfl⟩

/-- Helper: the congruence of the request-header forwarding loop. -/
theorem buildForwardedHeaders_congr {g g' : String → String}
    (hg : ∀ h ∈ headers_to_forward, g h = g' h) :
    buildForwardedHeaders g = buildForwardedHeaders g' := by
  unfold buildForwardedHeaders
  exact List.filterMap_congr (fun a ha => by rw [hg a ha])

/-- Helper: the congruence of the response-header copy loop. -/
theorem buildReturnedHeaders_congr {g g' : String → String}
    (hg : ∀ h ∈ headers_to_return, g h = g' h) :
    buildReturnedHeaders g = buildReturnedHeaders g' := by
  unfold buildReturnedHeaders
  exact List.filterMap_congr (fun a ha => by rw [hg a ha])

/-- Claim C3: in the multipart upload batch, a submitted file whose filename
exactly matches a filename already listed in the target folder is skipped —
no upload call is issued for it — and when every non-matching file uploads
successfully, the issued calls and the uploaded count are exactly those of
the non-matching files. -/
theorem uploadHandler_skips_existing (dir : String) (files_exist : List String)
    (batch : List UploadItem) :
    (∀ name, name ∈ files_exist →
      HandlerCall.upload name ∉ (processBatch dir files_exist batch).1) ∧
    ((∀ it ∈ batch, itemOk dir it = true) →
      processBatch dir files_exist batch =
        (((batch.filter fun it => !(files_exist.any fun fe => it.filename == fe)).map
            fun it => HandlerCall.upload it.filename),
         Except.ok (batch.filter fun it =>
            !(files_exist.any fun fe => it.filename == fe)).length)) := by
  constructor
  · intro name hname
    induction batch with
    | nil => simp [processBatch]
    | cons it rest ih =>
      cases hc : files_exist.any fun fe => it.filename == fe with
      | true => simpa [processBatch, hc] using ih
      | false =>
        have hne : it.filename ≠ name := by
          intro heq
          have : files_exist.any (fun fe => it.filename == fe) = true :=
            List.any_eq_true.mpr ⟨name, hname, by simp [heq]⟩
          simp [this] at hc
        cases ho : it.openResult with
        | error e => simp [processBatch, hc, ho]
        | ok u =>
          cases hu : UploadFile it.copyResult it.closeResult it.httpOutcome dir it.filename with
          | error e => simp [processBatch, hc, ho, hu, Ne.symm hne]
          | ok s => simpa [processBatch, hc, ho, hu, Ne.symm hne] using ih
  · induction batch with
    | nil => intro _; simp [processBatch]
    | cons it rest ih =>
      intro hall
      have hit := hall it (List.mem_cons_self it rest)
      have hrest : ∀ x ∈ rest, itemOk dir x = true :=
        fun x hx => hall x (List.mem_cons_of_mem _ hx)
      rw [itemOk, Bool.and_eq_true] at hit
      cases hc : files_exist.any fun fe => it.filename == fe with
      | true => simpa [processBatch, hc, List.filter_cons, hc] using ih hrest
      | false =>
        cases ho : it.openResult with
        | error e => rw [ho] at hit; simp at hit
        | ok u =>
          cases hu : UploadFile it.copyResult it.closeResult it.httpOutcome dir it.filename with
          | error e => rw [hu] at hit; simp at hit
          | ok s =>
            simp [processBatch, hc, ho, hu, List.filter_cons, ih hrest, Except.map]

/-- A successful upload response around the 40-character hash. -/
def uploadOk200 : TransportResult :=
  TransportResult.resp ⟨200, "200 OK", fun _ => "", ⟨hash40, none⟩⟩

/-- A file part named a.txt whose open and upload succeed. -/
def itemA : UploadItem := ⟨"a.txt", Except.ok (), Except.ok (), Except.ok (), uploadOk200⟩

/-- A file part named b.txt whose open and upload succeed. -/
def itemB : UploadItem := ⟨"b.txt", Except.ok (), Except.ok (), Except.ok (), uploadOk200⟩

/-- Witness for C3: with a.txt already listed remotely, submitting a.txt and
b.txt issues no upload call for a.txt, uploads b.txt, and counts 1. -/
theorem uploadHandler_skips_existing_witness :
    HandlerCall.upload "a.txt" ∉ (processBatch "/test/" ["a.txt"] [itemA, itemB]).1 ∧
    processBatch "/test/" ["a.txt"] [itemA, itemB] =
      ([HandlerCall.upload "b.txt"], Except.ok 1) :=
  ⟨(uploadHandler_skips_existing "/test/" ["a.txt"] [itemA, itemB]).1 "a.txt" (by decide),
   (uploadHandler_skips_existing "/test/" ["a.txt"] [itemA, itemB]).2 (by decide)⟩

/-- Claim C6: in the upload relay, a request whose target folder is found
absent issues the directory-create call before any file upload, and a
creation failure aborts the whole request with an error response, with no
file upload call made. -/
theorem uploadHandler_mkdir_before_upload (req : UploadRequest) (fs : List String)
    (habs : IsDirectoryExist req.listOutcome = (none, fs, false)) :
    (uploadHandlerPost req).1.take 2 = [HandlerCall.listDir, HandlerCall.mkdir] ∧
    ∀ e, CreateDirectory (fetchValue req.folderValues "/test/") req.createOutcome =
        Except.error e →
      uploadHandlerPost req =
        ([HandlerCall.listDir, HandlerCall.mkdir], HandlerResult.errorResp e) := by
  cases hcd : CreateDirectory (fetchValue req.folderValues "/test/") req.createOutcome with
  | error e0 =>
    refine ⟨by simp [uploadHandlerPost, habs, hcd], fun e he => ?_⟩
    injection he with h
    subst h
    simp [uploadHandlerPost, habs, hcd]
  | ok u =>
    refine ⟨by simp [uploadHandlerPost, habs, hcd], fun e he => ?_⟩
    exact absurd he (by simp)

/-- The upstream answer to a successful mkdir: the raw body is the literal
text "success" in quotes. -/
def createOkResp : TransportResult :=
  TransportResult.resp ⟨201, "201 CREATED", fun _ => "",
    ⟨"\x22success\x22", some (JValue.str "success")⟩⟩

/-- A request whose folder listing hits the absent-path sentinel and whose
mkdir call fails at transport level. -/
def reqAbsentCreateFails : UploadRequest :=
  ⟨["/docs/"], tSentinel, TransportResult.err "mkdir refused", [itemB]⟩

/-- A request whose folder listing hits the absent-path sentinel and whose
mkdir call succeeds. -/
def reqAbsentCreateOk : UploadRequest :=
  ⟨["/docs/"], tSentinel, createOkResp, [itemB]⟩

/-- Witness for C6: with the folder absent, a failing mkdir aborts with its
error and no upload call; with a succeeding mkdir, the first two calls are
the listing and the mkdir. -/
theorem uploadHandler_mkdir_before_upload_witness :
    uploadHandlerPost reqAbsentCreateFails =
      ([HandlerCall.listDir, HandlerCall.mkdir], HandlerResult.errorResp "mkdir refused") ∧
    (uploadHandlerPost reqAbsentCreateOk).1.take 2 =
      [HandlerCall.listDir, HandlerCall.mkdir] :=
  ⟨(uploadHandler_mkdir_before_upload reqAbsentCreateFails [] rfl).2 "mkdir refused" rfl,
   (uploadHandler_mkdir_before_upload reqAbsentCreateOk [] rfl).1⟩

/-- A file part whose body copy (`io.Copy` from the form part) fails but
whose POST still yields a 40-character body. -/
def itemCopyFail : UploadItem :=
  ⟨"a.txt", Except.ok (), Except.error "read failed", Except.ok (), uploadOk200⟩

/-- Claim C7 (code-bug exhibit): the code does not abort on a copy failure.
In `UploadFile` the error of `io.Copy(part, src)` is assigned to `err` but
`err = multipart_writer.Close()` overwrites it before any check, so a file
whose body copy fails still uploads (truncated) and, when the remote
returns a 40-character hash, reports success; the batch loop then counts it
and continues with the remaining files instead of failing fast. -/
theorem uploadFile_copy_error_dropped :
    UploadFile (Except.error "read failed") (Except.ok ()) uploadOk200 "/docs/" "a.txt" =
      Except.ok hash40 ∧
    processBatch "/docs/" [] [itemCopyFail, itemB] =
      ([HandlerCall.upload "a.txt", HandlerCall.upload "b.txt"], Except.ok 2) :=
  ⟨rfl, rfl⟩

/-- The default-repo answer shaped `exists: true` with the given repo_id. -/
def repoResp (raw : String) (ex : Bool) (rid : String) : TransportResult :=
  TransportResult.resp ⟨200, "200 OK", fun _ => "",
    ⟨raw, some (JValue.obj [("repo_id", JValue.str rid), ("exists", JValue.bool ex)])⟩⟩

/-- Claim C4 counterexample: a response with `exists: true` and the
1-character repo_id "x" is rejected with an error, yet the default repo
identifier is assigned "x" from this rejected response (it was "" before
the call) — the identifier is not only set from accepted responses. -/
theorem getDefaultRepo_sets_id_on_rejected :
    GetDefaultRepo (repoResp "" true "x") "" =
      some ("x", Except.error "Invalid default_repo: x") ∧ ("x" : String) ≠ "" :=
  ⟨rfl, by decide⟩

/-- Claim C4 (amended): the default-repo resolution accepts a response if
and only if `exists` is true and the repo_id has exactly 36 characters; an
`exists: false` response is rejected with the identifier untouched; a
response with `exists: true` and a repo_id of any other length is rejected
with an error, but the identifier is assigned that repo_id before the
length check rejects it (the caller treats the error as fatal at startup). -/
theorem getDefaultRepo_validation (raw : String) (ex : Bool) (rid dr : String) :
    (GetDefaultRepo (repoResp raw ex rid) dr = some (rid, Except.ok ()) ↔
      (ex = true ∧ rid.length = REPO_ID_SIZE)) ∧
    (ex = false → GetDefaultRepo (repoResp raw ex rid) dr =
      some (dr, Except.error "Repo doesn\x27t exists")) ∧
    (ex = true → rid.length ≠ REPO_ID_SIZE →
      GetDefaultRepo (repoResp raw ex rid) dr =
        some (rid, Except.error ("Invalid default_repo: " ++ rid))) := by
  have heval : GetDefaultRepo (repoResp raw ex rid) dr =
      (if !ex then some (dr, Except.error "Repo doesn\x27t exists")
       else if rid.length != REPO_ID_SIZE then
         some (rid, Except.error ("Invalid default_repo: " ++ rid))
       else some (rid, Except.ok ())) := rfl
  cases ex with
  | false =>
    refine ⟨?_, fun _ => ?_, fun h _ => by simp at h⟩
    · simp [heval]
    · simp [heval]
  | true =>
    by_cases hlen : rid.length = REPO_ID_SIZE
    · refine ⟨?_, fun h => by simp at h, fun _ h => absurd hlen h⟩
      simp [heval, hlen]
    · refine ⟨?_, fun h => by simp at h, fun _ _ => ?_⟩
      · simp [heval, hlen]
      · simp [heval, hlen]

/-- Witness for C4 (amended) at a 36-character repo_id and at exists false. -/
theorem getDefaultRepo_validation_witness :
    GetDefaultRepo (repoResp "" true "691b3e24-d05e-43cd-a9f2-6f32bd6b800e") "" =
      some ("691b3e24-d05e-43cd-a9f2-6f32bd6b800e", Except.ok ()) ∧
    GetDefaultRepo (repoResp "" false "691b3e24-d05e-43cd-a9f2-6f32bd6b800e") "" =
      some ("", Except.error "Repo doesn\x27t exists") :=
  ⟨(getDefaultRepo_validation "" true "691b3e24-d05e-43cd-a9f2-6f32bd6b800e" "").1.mpr
     ⟨rfl, by decide⟩,
   (getDefaultRepo_validation "" false "691b3e24-d05e-43cd-a9f2-6f32bd6b800e" "").2.1 rfl⟩

/-- Claim C8: the download relay forwards only the fixed allow-lists in each
direction. Every header put on the upstream fetch has an allow-listed name
and the client-supplied value for that name, and the forwarded set depends
only on the allow-listed client headers (a client header outside the list
cannot influence the upstream call). Symmetrically for a 200 response:
every header copied from the upstream response has a name in the
Cache-Control/Last-Modified allow-list, and the full client response header
set depends only on those upstream headers (an upstream header outside the
list never reaches the client). -/
theorem downloadHandler_header_allowlists :
    (∀ (g : String → String) (h v : String),
      (h, v) ∈ buildForwardedHeaders g → h ∈ headers_to_forward ∧ v = g h) ∧
    (∀ g g' : String → String, (∀ h ∈ headers_to_forward, g h = g' h) →
      buildForwardedHeaders g = buildForwardedHeaders g') ∧
    (∀ (g : String → String) (h v : String),
      (h, v) ∈ buildReturnedHeaders g → h ∈ headers_to_return ∧ v = g h) ∧
    (∀ (c : String) (g g' : String → String), (∀ h ∈ headers_to_return, g h = g' h) →
      downloadResponseHeaders200 c g = downloadResponseHeaders200 c g') := by
  refine ⟨fun g h v hm => ?_, fun g g' hg => buildForwardedHeaders_congr hg,
    fun g h v hm => ?_, fun c g g' hg => ?_⟩
  · simp only [buildForwardedHeaders, List.mem_filterMap] at hm
    obtain ⟨a, ha, hfa⟩ := hm
    cases hga : g a != "" with
    | false => rw [hga] at hfa; simp at hfa
    | true =>
      rw [hga] at hfa
      simp only [if_true, Option.some.injEq, Prod.mk.injEq] at hfa
      obtain ⟨rfl, rfl⟩ := hfa
      exact ⟨ha, rfl⟩
  · simp only [buildReturnedHeaders, List.mem_filterMap] at hm
    obtain ⟨a, ha, hfa⟩ := hm
    cases hga : g a != "" with
    | false => rw [hga] at hfa; simp at hfa
    | true =>
      rw [hga] at hfa
      simp only [if_true, Option.some.injEq, Prod.mk.injEq] at hfa
      obtain ⟨rfl, rfl⟩ := hfa
      exact ⟨ha, rfl⟩
  · unfold downloadResponseHeaders200
    rw [buildReturnedHeaders_congr hg]

/-- A client request carrying one allow-listed header. -/
def clientHeaders : String → String :=
  fun h => if h == "Accept" then "text/html" else ""

/-- The same client request with an extra non-allow-listed header. -/
def clientHeadersLeak : String → String :=
  fun h => if h == "Accept" then "text/html"
    else if h == "X-Api-Key" then "secret" else ""

/-- An upstream response carrying one allow-listed header. -/
def upstreamHeaders : String → String :=
  fun h => if h == "Cache-Control" then "max-age=3600" else ""

/-- The same upstream response with an extra non-allow-listed header. -/
def upstreamHeadersLeak : String → String :=
  fun h => if h == "Cache-Control" then "max-age=3600"
    else if h == "Set-Cookie" then "sid=1" else ""

/-- Witness for C8 at concrete header maps: a forwarded pair is allow-listed
with the client value, an extra X-Api-Key request header does not change the
upstream fetch, a returned pair is allow-listed with the upstream value, and
an extra Set-Cookie upstream header does not change the client response. -/
theorem downloadHandler_header_allowlists_witness :
    ("Accept" ∈ headers_to_forward ∧ "text/html" = clientHeaders "Accept") ∧
    buildForwardedHeaders clientHeaders = buildForwardedHeaders clientHeadersLeak ∧
    ("Cache-Control" ∈ headers_to_return ∧ "max-age=3600" = upstreamHeaders "Cache-Control") ∧
    downloadResponseHeaders200 "keep-alive" upstreamHeaders =
      downloadResponseHeaders200 "keep-alive" upstreamHeadersLeak :=
  ⟨downloadHandler_header_allowlists.1 clientHeaders "Accept" "text/html" (by decide),
   downloadHandler_header_allowlists.2.1 clientHeaders clientHeadersLeak (by decide),
   downloadHandler_header_allowlists.2.2.1 upstreamHeaders "Cache-Control" "max-age=3600"
     (by decide),
   downloadHandler_header_allowlists.2.2.2 "keep-alive" upstreamHeaders upstreamHeadersLeak
     (by decide)⟩

/-- Claim C10: the duplicate-skip list built from a directory listing holds
only the names of entries whose type discriminator is exactly "file": every
name in the list comes from a "file"-typed entry, the listing operation
returns exactly that list, and a submitted file whose name matches only a
non-"file" entry (such as a subdirectory) is not skipped — an upload call is
issued for it and counted. -/
theorem listDirectory_skiplist_files_only :
    (∀ (specs : List FileSpec) (n : String),
      n ∈ listedFiles specs → ∃ e ∈ specs, e.type = "file" ∧ e.name = n) ∧
    (∀ (r : HttpResponse) (v : JValue) (specs : List FileSpec),
      r.body.json = some v → decodeFileSpecs v = some specs →
      ListDirectory (TransportResult.resp r) = Except.ok (listedFiles specs)) ∧
    (∀ (dir : String) (specs : List FileSpec) (it : UploadItem),
      (∀ e ∈ specs, e.type = "file" → e.name ≠ it.filename) →
      itemOk dir it = true →
      processBatch dir (listedFiles specs) [it] =
        ([HandlerCall.upload it.filename], Except.ok 1)) := by
  refine ⟨fun specs n hn => mem_listedFiles hn, fun r v specs hv hd => ?_,
    fun dir specs it hno hk => ?_⟩
  · simp [ListDirectory, DoSeafileRequest, hv, hd]
  · have hany : (listedFiles specs).any (fun fe => it.filename == fe) = false := by
      by_contra hc
      rw [Bool.not_eq_false] at hc
      obtain ⟨x, hx, hpx⟩ := List.any_eq_true.mp hc
      obtain ⟨e, he, ht, rfl⟩ := mem_listedFiles hx
      have hfx : it.filename = e.name := by simpa using hpx
      exact hno e he ht hfx.symm
    rw [itemOk, Bool.and_eq_true] at hk
    cases ho : it.openResult with
    | error e => rw [ho] at hk; simp at hk
    | ok u =>
      cases hu : UploadFile it.copyResult it.closeResult it.httpOutcome dir it.filename with
      | error e => rw [hu] at hk; simp at hk
      | ok s => simp [processBatch, hany, ho, hu, Except.map]

/-- The JSON array of the two-entry listing (one file, one directory). -/
def vListing : JValue :=
  JValue.arr
    [JValue.obj [("type", JValue.str "file"), ("name", JValue.str "a.txt")],
     JValue.obj [("type", JValue.str "dir"), ("name", JValue.str "docs")]]

/-- The decoded entries of that listing. -/
def specsListing : List FileSpec := [⟨"", 0, "file", "a.txt", 0⟩, ⟨"", 0, "dir", "docs", 0⟩]

/-- The upstream 200 response carrying that listing. -/
def rListing : HttpResponse :=
  ⟨200, "200 OK", fun _ => "",
   ⟨"[\x7b\x22type\x22: \x22file\x22, \x22name\x22: \x22a.txt\x22\x7d, \x7b\x22type\x22: \x22dir\x22, \x22name\x22: \x22docs\x22\x7d]",
    some vListing⟩⟩

/-- A file part named like the remote subdirectory "docs", with successful
open and upload. -/
def itemDocs : UploadItem := ⟨"docs", Except.ok (), Except.ok (), Except.ok (), uploadOk200⟩

/-- Witness for C10: the two-entry listing yields the skip list consisting
of the file entry a.txt only, and a submitted file named "docs" — matching
only the directory entry — is uploaded and counted. -/
theorem listDirectory_skiplist_files_only_witness :
    (∃ e ∈ specsListing, e.type = "file" ∧ e.name = "a.txt") ∧
    ListDirectory (TransportResult.resp rListing) = Except.ok (listedFiles specsListing) ∧
    processBatch "/test/" (listedFiles specsListing) [itemDocs] =
      ([HandlerCall.upload "docs"], Except.ok 1) :=
  ⟨listDirectory_skiplist_files_only.1 specsListing "a.txt" (by decide),
   listDirectory_skiplist_files_only.2.1 rListing vListing specsListing rfl rfl,
   listDirectory_skiplist_files_only.2.2 "/test/" specsListing itemDocs (by decide) rfl⟩

end SeafileUploader
